import Mathlib

/-!
Verification of the logkeeper retention/cleanup engine and service
lifecycle coordinator, shallowly embedded in Lean 4.

The data model follows the repository: builds, tests and logs are three
collections of records; tests and logs reference their owning build by a
string identifier with no enforced referential integrity.  Timestamps are
modelled as integers (seconds since the epoch); Go durations are integers
in nanoseconds where the `net/http` server configuration is concerned.
-/

namespace Logkeeper

/-- A build record: unique string identifier, start timestamp and a
"failed" flag that defaults to false.  The opaque metadata mapping is
irrelevant to every property below and is omitted. -/
structure LogKeeperBuild where
  id : String
  started : Int
  failed : Bool := false
  deriving Repr, DecidableEq

/-- A test record: opaque identifier and owning build identifier. -/
structure Test where
  id : Nat
  buildId : String
  deriving Repr, DecidableEq

/-- A log record: owning build identifier (payload out of scope). -/
structure Log where
  buildId : String
  deriving Repr, DecidableEq

/-- The document store: the three logical collections. -/
structure Store where
  builds : List LogKeeperBuild
  tests : List Test
  logs : List Log
  deriving Repr, DecidableEq

/-- Deletion counts returned by the cascading cleanup executor. -/
structure DeletedStats where
  NumBuilds : Nat
  NumTests : Nat
  NumLogs : Nat
  deriving Repr, DecidableEq

/-- Eligibility predicate for automatic deletion: failed flag false and
start timestamp strictly older than `now - cutoff`. -/
def eligible (now cutoff : Int) (b : LogKeeperBuild) : Bool :=
  decide (b.started < now - cutoff) && !b.failed

/-- Modelled from the spec: the implementation of `GetOldBuilds` is not
under src/ (only its tests are).  Per the spec it returns at most `limit`
build records satisfying the eligibility predicate (failed flag
false/absent and start timestamp strictly older than `now − cutoff`),
with no ordering guarantee; an empty sequence (not an error) when nothing
matches.  `now` and the retention cutoff are passed explicitly. -/
def GetOldBuilds (now cutoff : Int) (s : Store) (limit : Nat) :
    List LogKeeperBuild :=
  (s.builds.filter (eligible now cutoff)).take limit

/-- Modelled from the spec: the implementation of
`CleanupOldLogsAndTestsByBuild` is not under src/ (only its tests are).
Per the spec it deletes all Test rows and all Log rows owned by the given
build identifier and the (at most one) Build row with that identifier,
returning per-kind deletion counts with `NumBuilds ∈ {0,1}`; zero records
of a kind is not an error.  The store adapter itself never fails in this
model, so the operation is total. -/
def CleanupOldLogsAndTestsByBuild (s : Store) (buildId : String) :
    DeletedStats × Store :=
  let numTests := s.tests.countP (fun t => t.buildId == buildId)
  let numLogs := s.logs.countP (fun l => l.buildId == buildId)
  let numBuilds := if s.builds.any (fun b => b.id == buildId) then 1 else 0
  (⟨numBuilds, numTests, numLogs⟩,
    { builds := s.builds.eraseP (fun b => b.id == buildId)
      tests := s.tests.filter (fun t => !(t.buildId == buildId))
      logs := s.logs.filter (fun l => !(l.buildId == buildId)) })

/-- Modelled from the spec: the implementation of `UpdateFailedBuild` is
not under src/ (only its tests are).  Per the spec it sets `failed = true`
on the build with the given identifier and is a no-op success when no such
build exists. -/
def UpdateFailedBuild (s : Store) (buildId : String) : Store :=
  { s with
    builds := s.builds.map (fun b =>
      if b.id == buildId then { b with failed := true } else b) }

/-- Modelled from the spec: `CleanupBatchSize` (the per-tick batch size)
is a configuration constant whose definition is not under src/; the spec
does not pin its value, only that it is a positive batch size. -/
def CleanupBatchSize : Nat := 1000

/-- Modelled from the spec: the retention cutoff `deletePassedTestCutoff`
is a configured duration "on the order of weeks" whose definition is not
under src/.  For concrete scenarios we instantiate it as 30 days in
seconds. -/
def deletePassedTestCutoff : Int := 2592000

/-- A concrete `now` for the scenario of the test suite (seconds). -/
def scenarioNow : Int := 1700000000

/-- The four builds inserted by `insertBuilds` in the test suite: started
Jan 15 2016, Feb 15 2016, `now − cutoff + 1 minute`, and `now`. -/
def scenarioStore : Store :=
  { builds :=
      [ { id := "one", started := 1452816000 }
      , { id := "two", started := 1455494400 }
      , { id := "three",
          started := scenarioNow - deletePassedTestCutoff + 60,
          failed := false }
      , { id := "four", started := scenarioNow } ]
    tests :=
      [ { id := 1, buildId := "one" }
      , { id := 2, buildId := "two" }
      , { id := 3, buildId := "three" }
      , { id := 4, buildId := "four" } ]
    logs :=
      [ { buildId := "one" }
      , { buildId := "one" }
      , { buildId := "two" }
      , { buildId := "fresh" } ] }

/-!
Service lifecycle coordinator (`main/logkeeper.go`).  Go errors are
modelled as an inductive with the sentinel `http.ErrServerClosed`
distinguished; `nil` errors are `Option.none`.  `http.Server` is the
record of the fields `getService` sets, with the handler abstracted to an
identity token; Go durations are integers in nanoseconds.  A Go context
is modelled by whether it carries a deadline: `context.Background` and
`context.WithCancel` produce deadline-free contexts.
-/

/-- A Go error value (always non-nil); `errServerClosed` is the sentinel
`http.ErrServerClosed`. -/
inductive GoError where
  | errServerClosed : GoError
  | other : String → GoError
  deriving Repr, DecidableEq

/-- One nanosecond-denominated second, as in Go's `time` package. -/
def timeSecond : Int := 1000000000

/-- One nanosecond-denominated minute, as in Go's `time` package. -/
def timeMinute : Int := 60 * timeSecond

/-- The `http.Server` fields set by `getService`; the handler is an
opaque identity token. -/
structure HttpServer where
  Addr : String
  Handler : Nat
  ReadTimeout : Int
  ReadHeaderTimeout : Int
  WriteTimeout : Int
  deriving Repr, DecidableEq

/-- `getService(addr, n)` from `main/logkeeper.go`: builds the server
with the given address and handler and fixed read/write timeouts. -/
def getService (addr : String) (n : Nat) : HttpServer :=
  { Addr := addr
    Handler := n
    ReadTimeout := timeMinute
    ReadHeaderTimeout := 30 * timeSecond
    WriteTimeout := timeMinute }

/-- `listenServeAndHandleErrs(s)` from `main/logkeeper.go`: a nil server
pointer yields the "no server defined" error; otherwise the result of
`ListenAndServe` (which always ends with a non-nil error, modelled by the
environment function `serve`) is mapped to nil when it is
`http.ErrServerClosed` and returned unchanged otherwise. -/
def listenServeAndHandleErrs (s : Option HttpServer)
    (serve : HttpServer → GoError) : Option GoError :=
  match s with
  | none => some (GoError.other "no server defined")
  | some srv =>
    let err := serve srv
    if err = GoError.errServerClosed then none else some err

/-- A Go context, reduced to the one property the lifecycle claims need:
whether it carries a deadline. -/
structure GoContext where
  hasDeadline : Bool
  deriving Repr, DecidableEq

/-- `context.Background()`: no deadline. -/
def contextBackground : GoContext := { hasDeadline := false }

/-- `context.WithCancel(parent)`: adds cancellation, no deadline. -/
def contextWithCancel (parent : GoContext) : GoContext := parent

/-- The context created at the top of `main`:
`context.WithCancel(context.Background())`. -/
def mainCtx : GoContext := contextWithCancel contextBackground

/-- The shutdown requests issued by `gracefulShutdownForSIGTERM`: one
`server.Shutdown(ctx)` call per non-nil entry of the server list, each
with the context `main` passed in. -/
def shutdownRequests (ctx : GoContext) (servers : List (Option HttpServer)) :
    List (GoContext × HttpServer) :=
  servers.filterMap (fun s => s.map (fun srv => (ctx, srv)))

/-- The errors `gracefulShutdownForSIGTERM` adds to the catcher: the
non-nil results of every issued `Shutdown` call; the routine returns
(signals `gracefulWait.Done`) only after the whole list is processed. -/
def gracefulShutdownErrors (ctx : GoContext)
    (servers : List (Option HttpServer))
    (shutdown : GoContext → HttpServer → Option GoError) : List GoError :=
  (shutdownRequests ctx servers).filterMap (fun r => shutdown r.1 r.2)

/-- `grip.Catcher.Add`: a nil error is ignored, a non-nil error is
appended to the collection. -/
def catcherAdd (c : List GoError) (e : Option GoError) : List GoError :=
  match e with
  | none => c
  | some err => c ++ [err]

/-- `grip.Catcher.Resolve`: nil when no error was collected, a non-nil
aggregate error otherwise. -/
def catcherResolve (c : List GoError) : Option GoError :=
  if c.isEmpty then none else some (GoError.other "aggregate")

/-- `grip.EmergencyFatal(err)` terminates the process with a failure
exit condition exactly when `err` is non-nil. -/
def emergencyFatalExits (e : Option GoError) : Bool := e.isSome

/-- The default HTTP port of `main` (`-port` flag default 8080). -/
def httpPortDefault : Nat := 8080

/-- The primary API listener `main` builds:
`getService(":8080", n)` (handler token 0). -/
def lkService : HttpServer :=
  getService (":" ++ toString httpPortDefault) 0

/-- The diagnostics listener `main` builds:
`getService("127.0.0.1:2285", pprof)` (handler token 1). -/
def pprofService : HttpServer := getService "127.0.0.1:2285" 1

/-- The server list `main` registers for graceful shutdown:
`[]*http.Server{lkService, pprofService}`. -/
def mainServers : List (Option HttpServer) := [some lkService, some pprofService]

/-- The aggregate error collection at the end of `main`: the catcher
holds the results of `listenServeAndHandleErrs` for both listener tasks
and the non-nil results of each listener's `Shutdown` call, the listen
and serve outcomes supplied by `serve` and the shutdown outcomes by
`shutdown`. -/
def mainAggregate (serve : HttpServer → GoError)
    (shutdown : GoContext → HttpServer → Option GoError) : List GoError :=
  catcherAdd
    (catcherAdd [] (listenServeAndHandleErrs (some lkService) serve))
    (listenServeAndHandleErrs (some pprofService) serve)
  ++ gracefulShutdownErrors mainCtx mainServers shutdown

/-- The final exit condition of `main`:
`grip.EmergencyFatal(catcher.Resolve())`. -/
def mainExitFailure (serve : HttpServer → GoError)
    (shutdown : GoContext → HttpServer → Option GoError) : Bool :=
  emergencyFatalExits (catcherResolve (mainAggregate serve shutdown))

/-- A concrete listen-and-serve environment in which every listener ends
with an ordinary (non-sentinel) failure. -/
def serveBoom : HttpServer → GoError := fun _ => GoError.other "boom"

/-- A concrete shutdown environment in which every shutdown call fails. -/
def shutdownBoom : GoContext → HttpServer → Option GoError :=
  fun _ _ => some (GoError.other "shutdown failure")

/-- Claim C1: a build is returned by `GetOldBuilds` with sufficient limit
iff it is stored, started strictly before `now − cutoff` and is not
failed; in particular on the four-build scenario store `GetOldBuilds`
returns exactly the Jan and Feb 2016 builds. -/
theorem getOldBuilds_eligibility :
    (∀ (now cutoff : Int) (s : Store) (limit : Nat) (b : LogKeeperBuild),
      b ∈ GetOldBuilds now cutoff s limit →
        b ∈ s.builds ∧ b.started < now - cutoff ∧ b.failed = false)
    ∧ (∀ (now cutoff : Int) (s : Store) (limit : Nat) (b : LogKeeperBuild),
      (s.builds.filter (eligible now cutoff)).length ≤ limit →
      b ∈ s.builds → b.started < now - cutoff → b.failed = false →
      b ∈ GetOldBuilds now cutoff s limit)
    ∧ (GetOldBuilds scenarioNow deletePassedTestCutoff scenarioStore
        CleanupBatchSize).map LogKeeperBuild.id = ["one", "two"] := by
  refine ⟨?_, ?_, by decide⟩
  · intro now cutoff s limit b hmem
    have h1 := List.mem_of_mem_take hmem
    rw [List.mem_filter] at h1
    revert h1
    simp [eligible, and_assoc]
  · intro now cutoff s limit b hlim hb hold hfail
    unfold GetOldBuilds
    rw [List.take_of_length_le hlim]
    rw [List.mem_filter]
    exact ⟨hb, by simp [eligible, hold, hfail]⟩

/-- Witness for C1: on the scenario store with the batch-size limit, the
Jan 2016 build is returned because it is stored, old enough and not
failed. -/
theorem getOldBuilds_eligibility_witness :
    { id := "one", started := 1452816000, failed := false } ∈
      GetOldBuilds scenarioNow deletePassedTestCutoff scenarioStore
        CleanupBatchSize :=
  getOldBuilds_eligibility.2.1 scenarioNow deletePassedTestCutoff
    scenarioStore CleanupBatchSize
    { id := "one", started := 1452816000, failed := false }
    (by decide) (by decide) (by decide) rfl

/-- If a predicate holds for at most one element of a list, then after
`eraseP` removes the first match no element satisfying it remains. -/
theorem any_eraseP_eq_false {α : Type} {p : α → Bool} {l : List α}
    (h : l.countP p ≤ 1) : (l.eraseP p).any p = false := by
  induction l with
  | nil => simp
  | cons a t ih =>
    by_cases hp : p a = true
    · rw [List.eraseP_cons_of_pos hp]
      rw [List.countP_cons_of_pos p t hp] at h
      have ht : t.countP p = 0 := Nat.le_zero.mp (Nat.lt_succ_iff.mp h)
      rw [List.countP_eq_zero] at ht
      simp only [List.any_eq_false]
      exact ht
    · rw [List.eraseP_cons_of_neg hp]
      rw [List.countP_cons_of_neg p t hp] at h
      simp only [List.any_cons, ih h, Bool.or_false]
      exact Bool.eq_false_iff.mpr hp

/-- Claim C2: cleaning up an existing build with k tests and m logs
returns counts {1, k, m}, leaves no Test or Log row referencing the build
identifier, and preserves Test and Log rows owned by other builds. -/
theorem cleanup_existing_build (s : Store) (id : String) (k m : Nat)
    (hb : s.builds.any (fun b => b.id == id) = true)
    (hk : s.tests.countP (fun t => t.buildId == id) = k)
    (hm : s.logs.countP (fun l => l.buildId == id) = m) :
    (CleanupOldLogsAndTestsByBuild s id).1 = ⟨1, k, m⟩
    ∧ (CleanupOldLogsAndTestsByBuild s id).2.tests.countP
        (fun t => t.buildId == id) = 0
    ∧ (CleanupOldLogsAndTestsByBuild s id).2.logs.countP
        (fun l => l.buildId == id) = 0
    ∧ (∀ t ∈ s.tests, (t.buildId == id) = false →
        t ∈ (CleanupOldLogsAndTestsByBuild s id).2.tests)
    ∧ (∀ l ∈ s.logs, (l.buildId == id) = false →
        l ∈ (CleanupOldLogsAndTestsByBuild s id).2.logs) := by
  refine ⟨?_, ?_, ?_, ?_, ?_⟩
  · simp [CleanupOldLogsAndTestsByBuild, hb, hk, hm]
  · simp [CleanupOldLogsAndTestsByBuild, List.countP_eq_zero,
      List.mem_filter]
  · simp [CleanupOldLogsAndTestsByBuild, List.countP_eq_zero,
      List.mem_filter]
  · intro t ht hne
    simp [CleanupOldLogsAndTestsByBuild, List.mem_filter, ht, hne]
  · intro l hl hne
    simp [CleanupOldLogsAndTestsByBuild, List.mem_filter, hl, hne]

/-- Witness for C2: cleaning the Jan 2016 build of the scenario store
(1 test, 2 logs) returns counts {1, 1, 2}. -/
theorem cleanup_existing_build_witness :
    (CleanupOldLogsAndTestsByBuild scenarioStore "one").1 = ⟨1, 1, 2⟩ :=
  (cleanup_existing_build scenarioStore "one" 1 2 (by decide) (by decide)
    (by decide)).1

/-- Claim C3: after `UpdateFailedBuild` marks a build identifier, any
`GetOldBuilds` call on the updated store excludes every build with that
identifier, whatever its start timestamp; and the marking is idempotent. -/
theorem updateFailedBuild_excludes (s : Store) (buildId : String) :
    (∀ (now cutoff : Int) (limit : Nat) (b : LogKeeperBuild),
      b ∈ GetOldBuilds now cutoff (UpdateFailedBuild s buildId) limit →
      b.id ≠ buildId)
    ∧ UpdateFailedBuild (UpdateFailedBuild s buildId) buildId =
        UpdateFailedBuild s buildId := by
  constructor
  · intro now cutoff limit b hmem heq
    have h1 := List.mem_of_mem_take hmem
    rw [List.mem_filter] at h1
    obtain ⟨hstore, helig⟩ := h1
    simp only [UpdateFailedBuild, List.mem_map] at hstore
    obtain ⟨a, _, rfl⟩ := hstore
    by_cases hid : a.id == buildId
    · simp only [hid, if_true] at helig heq
      simp [eligible] at helig
    · simp only [hid] at heq
      rw [if_neg (by simp_all)] at heq
      exact absurd (by exact beq_iff_eq.mpr heq) (by simp_all)
  · simp only [UpdateFailedBuild, List.map_map]
    congr 1
    apply List.map_congr_left
    intro a _
    by_cases hid : a.id = buildId
    · simp [hid]
    · simp [hid]

/-- Witness for C3: after marking build "two" failed in the scenario
store, the build returned by `GetOldBuilds` does not carry id "two". -/
theorem updateFailedBuild_excludes_witness :
    LogKeeperBuild.id { id := "one", started := 1452816000 } ≠ "two" :=
  (updateFailedBuild_excludes scenarioStore "two").1 scenarioNow
    deletePassedTestCutoff CleanupBatchSize
    { id := "one", started := 1452816000 } (by decide)

/-- Claim C4: cleanup of a build identifier with no Build, Test or Log
record returns {0,0,0} and leaves the store unchanged; and in a store
whose build identifiers are not duplicated, a second cleanup of the same
identifier returns {0,0,0} (idempotence). -/
theorem cleanup_nonexistent_idempotent (s : Store) (id : String) :
    ((s.builds.any (fun b => b.id == id)) = false →
     (s.tests.any (fun t => t.buildId == id)) = false →
     (s.logs.any (fun l => l.buildId == id)) = false →
      CleanupOldLogsAndTestsByBuild s id = (⟨0, 0, 0⟩, s))
    ∧ (s.builds.countP (fun b => b.id == id) ≤ 1 →
      (CleanupOldLogsAndTestsByBuild
        (CleanupOldLogsAndTestsByBuild s id).2 id).1 = ⟨0, 0, 0⟩) := by
  constructor
  · intro hb ht hl
    simp only [List.any_eq_false] at hb ht hl
    simp only [CleanupOldLogsAndTestsByBuild]
    rw [List.eraseP_of_forall_not hb]
    rw [List.countP_eq_zero.mpr ht, List.countP_eq_zero.mpr hl]
    rw [List.filter_eq_self.mpr (by intro t h; simpa using ht t h)]
    rw [List.filter_eq_self.mpr (by intro l h; simpa using hl l h)]
    simp [List.any_eq_false.mpr hb]
  · intro huniq
    simp only [CleanupOldLogsAndTestsByBuild]
    simp [any_eraseP_eq_false huniq, List.countP_eq_zero,
      List.mem_filter]

/-- Witness for C4: cleaning the Jan 2016 build of the scenario store
twice makes the second call return {0,0,0}. -/
theorem cleanup_nonexistent_idempotent_witness :
    (CleanupOldLogsAndTestsByBuild
      (CleanupOldLogsAndTestsByBuild scenarioStore "one").2 "one").1 =
      ⟨0, 0, 0⟩ :=
  (cleanup_nonexistent_idempotent scenarioStore "one").2 (by decide)

/-- Claim C5: `GetOldBuilds(limit)` returns at most `limit` builds, and
when no stored build is eligible it returns the empty sequence. -/
theorem getOldBuilds_limit_empty (now cutoff : Int) (s : Store)
    (limit : Nat) :
    (GetOldBuilds now cutoff s limit).length ≤ limit
    ∧ ((∀ b ∈ s.builds, eligible now cutoff b = false) →
        GetOldBuilds now cutoff s limit = []) := by
  constructor
  · exact List.length_take_le limit _
  · intro h
    unfold GetOldBuilds
    rw [List.filter_eq_nil_iff.mpr (by intro b hb; simp [h b hb])]
    simp

/-- Witness for C5: on a store holding only a freshly started build,
`GetOldBuilds` returns the empty sequence. -/
theorem getOldBuilds_limit_empty_witness :
    GetOldBuilds scenarioNow deletePassedTestCutoff
      { builds := [{ id := "four", started := scenarioNow }],
        tests := [], logs := [] } 5 = [] :=
  (getOldBuilds_limit_empty scenarioNow deletePassedTestCutoff
    { builds := [{ id := "four", started := scenarioNow }],
      tests := [], logs := [] } 5).2 (by decide)

/-- Membership in a catcher is preserved by `catcherAdd`. -/
theorem mem_catcherAdd_mono (c : List GoError) (x : GoError)
    (e : Option GoError) (h : x ∈ c) : x ∈ catcherAdd c e := by
  cases e <;> simp [catcherAdd, h]

/-- A non-nil error handed to `catcherAdd` ends up in the catcher. -/
theorem mem_catcherAdd_self (c : List GoError) (e : GoError) :
    e ∈ catcherAdd c (some e) := by
  simp [catcherAdd]

/-- Claim C6: for a non-nil server, `listenServeAndHandleErrs` returns
nil exactly when listen-and-serve ends with `http.ErrServerClosed`; any
other listen/serve failure is returned unchanged. -/
theorem listenServe_closed_iff (srv : HttpServer)
    (serve : HttpServer → GoError) :
    (listenServeAndHandleErrs (some srv) serve = none ↔
      serve srv = GoError.errServerClosed)
    ∧ (∀ e : GoError, serve srv = e → e ≠ GoError.errServerClosed →
        listenServeAndHandleErrs (some srv) serve = some e) := by
  constructor
  · by_cases h : serve srv = GoError.errServerClosed <;>
      simp [listenServeAndHandleErrs, h]
  · intro e he hne
    subst he
    simp [listenServeAndHandleErrs, hne]

/-- Witness for C6: a listener failing with an ordinary error has that
error returned by `listenServeAndHandleErrs`. -/
theorem listenServe_closed_iff_witness :
    listenServeAndHandleErrs (some lkService) serveBoom =
      some (GoError.other "boom") :=
  (listenServe_closed_iff lkService serveBoom).2 (GoError.other "boom")
    rfl (by decide)

/-- Claim C7: every captured error of the two listener tasks and of each
listener's shutdown call is in the aggregate catcher of `main`, and the
final exit condition of `main` is failure iff that aggregate is
non-empty. -/
theorem main_error_aggregation (serve : HttpServer → GoError)
    (shutdown : GoContext → HttpServer → Option GoError) :
    (∀ e : GoError, listenServeAndHandleErrs (some lkService) serve = some e →
      e ∈ mainAggregate serve shutdown)
    ∧ (∀ e : GoError, listenServeAndHandleErrs (some pprofService) serve = some e →
      e ∈ mainAggregate serve shutdown)
    ∧ (∀ (srv : HttpServer) (e : GoError), some srv ∈ mainServers →
        shutdown mainCtx srv = some e → e ∈ mainAggregate serve shutdown)
    ∧ (mainExitFailure serve shutdown = true ↔
        mainAggregate serve shutdown ≠ []) := by
  refine ⟨?_, ?_, ?_, ?_⟩
  · intro e he
    apply List.mem_append_left
    rw [he]
    exact mem_catcherAdd_mono _ e _ (mem_catcherAdd_self [] e)
  · intro e he
    apply List.mem_append_left
    rw [he]
    exact mem_catcherAdd_self _ e
  · intro srv e hmem he
    apply List.mem_append_right
    apply List.mem_filterMap.mpr
    refine ⟨(mainCtx, srv), ?_, he⟩
    simp only [mainServers, List.mem_cons, List.mem_singleton] at hmem
    rcases hmem with h | h | h
    · rw [Option.some_inj] at h
      subst h
      simp [shutdownRequests, mainServers]
    · rw [Option.some_inj] at h
      subst h
      simp [shutdownRequests, mainServers]
    · cases h
  · by_cases h : mainAggregate serve shutdown = [] <;>
      simp [mainExitFailure, emergencyFatalExits, catcherResolve, h,
        List.isEmpty_iff]

/-- Witness for C7: a failing shutdown call on the primary listener puts
its error into the aggregate of `main`. -/
theorem main_error_aggregation_witness :
    GoError.other "shutdown failure" ∈ mainAggregate serveBoom shutdownBoom :=
  (main_error_aggregation serveBoom shutdownBoom).2.2.1 lkService
    (GoError.other "shutdown failure") (List.Mem.head _) rfl

/-- Counterexample to C8 as stated: the claim says the graceful shutdown
request is "bounded by a fixed grace period", but the context `main`
hands to `gracefulShutdownForSIGTERM` is
`context.WithCancel(context.Background())`, which carries no deadline;
the shutdown request issued to the primary listener is unbounded. -/
theorem shutdown_request_unbounded :
    ¬ (∀ r ∈ shutdownRequests mainCtx mainServers,
        r.1.hasDeadline = true) := by
  intro h
  have hmem : (mainCtx, lkService) ∈ shutdownRequests mainCtx mainServers := by
    simp [shutdownRequests, mainServers]
  exact absurd (h (mainCtx, lkService) hmem) (by decide)

/-- Claim C8 (amended): upon the termination signal a graceful shutdown
request carrying the process-wide cancellable context — which has no
deadline, hence no fixed grace period — is issued to every registered
non-nil listener, and the routine signals completion only after every
issued request's outcome has been collected. -/
theorem gracefulShutdown_protocol (ctx : GoContext)
    (servers : List (Option HttpServer))
    (shutdown : GoContext → HttpServer → Option GoError) :
    (∀ srv : HttpServer, some srv ∈ servers →
      (ctx, srv) ∈ shutdownRequests ctx servers)
    ∧ (∀ (srv : HttpServer) (e : GoError), some srv ∈ servers →
        shutdown ctx srv = some e →
        e ∈ gracefulShutdownErrors ctx servers shutdown)
    ∧ mainCtx.hasDeadline = false := by
  refine ⟨?_, ?_, rfl⟩
  · intro srv h
    exact List.mem_filterMap.mpr ⟨some srv, h, rfl⟩
  · intro srv e h he
    exact List.mem_filterMap.mpr
      ⟨(ctx, srv), List.mem_filterMap.mpr ⟨some srv, h, rfl⟩, he⟩

/-- Witness for C8: the primary listener of `main` receives a shutdown
request with the process context. -/
theorem gracefulShutdown_protocol_witness :
    (mainCtx, lkService) ∈ shutdownRequests mainCtx mainServers :=
  (gracefulShutdown_protocol mainCtx mainServers shutdownBoom).1 lkService
    (List.Mem.head _)

/-- Claim C9: a nil server pointer makes `listenServeAndHandleErrs`
return the "no server defined" error without serving (the result does not
depend on the serve environment), and the graceful shutdown routine skips
nil entries, issuing requests only for non-nil servers. -/
theorem nil_server_handling :
    (∀ serve : HttpServer → GoError,
      listenServeAndHandleErrs none serve =
        some (GoError.other "no server defined"))
    ∧ (∀ (ctx : GoContext) (servers : List (Option HttpServer)),
        shutdownRequests ctx (none :: servers) =
          shutdownRequests ctx servers)
    ∧ (∀ (ctx : GoContext) (servers : List (Option HttpServer))
        (r : GoContext × HttpServer),
        r ∈ shutdownRequests ctx servers → some r.2 ∈ servers) := by
  refine ⟨fun _ => rfl, fun _ _ => rfl, ?_⟩
  intro ctx servers r hr
  unfold shutdownRequests at hr
  rw [List.mem_filterMap] at hr
  obtain ⟨s, hs, hmap⟩ := hr
  cases s with
  | none => simp at hmap
  | some srv =>
    simp only [Option.map_some'] at hmap
    rw [Option.some_inj] at hmap
    subst hmap
    exact hs

/-- Witness for C9: the request issued for the primary listener of
`main` indeed corresponds to a registered non-nil server. -/
theorem nil_server_handling_witness : some lkService ∈ mainServers :=
  nil_server_handling.2.2 mainCtx mainServers (mainCtx, lkService)
    (by simp [shutdownRequests, mainServers])

/-- Claim C10: `getService` builds a server with exactly the given
address and handler, a read timeout of one minute, a read-header timeout
of thirty seconds and a write timeout of one minute (in nanoseconds, as
Go durations). -/
theorem getService_fields (addr : String) (n : Nat) :
    (getService addr n).Addr = addr
    ∧ (getService addr n).Handler = n
    ∧ (getService addr n).ReadTimeout = 60 * 1000000000
    ∧ (getService addr n).ReadHeaderTimeout = 30 * 1000000000
    ∧ (getService addr n).WriteTimeout = 60 * 1000000000 := by
  exact ⟨rfl, rfl, rfl, rfl, rfl⟩

end Logkeeper
